import Mathlib

/-!
Shallow embedding of the capability-probe subsystem of
`install/cupy_builder/install_build.py` (CuPy build-time toolchain probing),
together with theorems settling the frozen claims about it.

Python strings (and the byte strings of compiler diagnostics, which are
ASCII in every case relevant here) are modelled as Lean `String`s, with
computations performed on their character lists.  Python exceptions are
modelled with `Except String`: a raised exception is `.error msg`.  The
module-level mutable version caches (`_hip_version`, ...) are modelled as an
explicit `BuildState` record threaded through the check functions, with
`Option` distinguishing "not yet checked" (`none`, Python `None`) from a
cached value.
-/

namespace CupyBuild

/-- A Python value that is either an `int` or a `str` (the version caches and
macro values mix both). -/
inductive PyVal where
  | int (n : Int)
  | str (s : String)
deriving DecidableEq, Repr

/-- Strip leading and trailing whitespace from a character list (the
whitespace stripping performed by Python `int()` on its argument). -/
def stripWs (cs : List Char) : List Char :=
  ((cs.dropWhile Char.isWhitespace).reverse.dropWhile Char.isWhitespace).reverse

/-- Value of a nonempty list of decimal digits; `none` if empty or if any
character is not a digit. -/
def digitsVal : List Char → Option Int
  | [] => none
  | ds => ds.foldlM
      (fun acc c =>
        if c.isDigit then some (acc * 10 + ((c.toNat : Int) - 48)) else none)
      (0 : Int)

/-- Model of Python `int(s)` on a decimal string: optional surrounding
whitespace, an optional sign, then decimal digits.  `none` models the
`ValueError` raised on any other input.  (Python additionally accepts
underscore digit separators, which never occur in the version strings this
module parses.) -/
def pyInt (s : String) : Option Int :=
  match stripWs s.toList with
  | '-' :: ds => (digitsVal ds).map (fun n => -n)
  | '+' :: ds => digitsVal ds
  | ds => digitsVal ds

/-- Helper for `pySplit`: `cur` is the current in-progress word, reversed. -/
def pySplitWsAux : List Char → List Char → List (List Char)
  | cur, [] => if cur.isEmpty then [] else [cur.reverse]
  | cur, c :: cs =>
    if c.isWhitespace then
      if cur.isEmpty then pySplitWsAux [] cs
      else cur.reverse :: pySplitWsAux [] cs
    else pySplitWsAux (c :: cur) cs

/-- Model of Python `s.split()` (no argument): split on runs of whitespace,
discarding empty words. -/
def pySplit (s : String) : List String :=
  (pySplitWsAux [] s.toList).map String.mk

/-- Helper for `pySplitOn`: `cur` is the current in-progress field, reversed. -/
def pySplitOnAux (sep : Char) : List Char → List Char → List (List Char)
  | cur, [] => [cur.reverse]
  | cur, c :: cs =>
    if c = sep then cur.reverse :: pySplitOnAux sep [] cs
    else pySplitOnAux sep (c :: cur) cs

/-- Model of Python `s.split(sep)` for a single-character separator: fields
between separators are kept, empty fields included. -/
def pySplitOn (sep : Char) (s : String) : List String :=
  (pySplitOnAux sep [] s.toList).map String.mk

/-- Model of Python `s[:-1]` (drop the final character; identity on `""`),
used to strip the trailing newline from captured `git` output. -/
def pyDropLast (s : String) : String :=
  String.mk s.toList.dropLast

/-! ## The diagnostic matcher `_match_output_lines` and its two patterns

`_match_output_lines(output_lines, regexs)` applies `re.match(regexs[j],
output_lines[i + j])` for each window start `i`.  A regular expression is
embedded as an abstract matcher `String → Option α` returning the match
object (`none` = Python's falsy no-match).  The two concrete patterns used
by `_get_compiler_base_options` are embedded below with match type
`Option String` holding `group(1)` (`none` when the pattern has no group).
-/

/-- Inner loop of `_match_output_lines`: try to match each regex in order
against consecutive lines starting at index `i`; `none` as soon as one
fails (Python's `break`), otherwise the list of match objects. -/
def windowMatch (lines : List String) : List (String → Option α) → Nat → Option (List α)
  | [], _ => some []
  | r :: rs, i =>
    match r (lines.getD i "") with
    | none => none
    | some m =>
      match windowMatch lines rs (i + 1) with
      | none => none
      | some ms => some (m :: ms)

/-- Outer loop of `_match_output_lines`: scan the given start offsets in
order; first fully matching window wins (Python's `for ... else`). -/
def scanOffsets (lines : List String) (regexs : List (String → Option α)) :
    List Nat → Option (List α)
  | [] => none
  | i :: rest =>
    match windowMatch lines regexs i with
    | some ms => some ms
    | none => scanOffsets lines regexs rest

/-- `_match_output_lines(output_lines, regexs)`: returns `None` when there
are fewer lines than regexs, otherwise scans start offsets
`range(len(output_lines) - len(regexs))`, i.e. `0, ..., len - len(regexs) - 1`,
exactly as the Python loop bound reads. -/
def match_output_lines (lines : List String) (regexs : List (String → Option α)) :
    Option (List α) :=
  if lines.length < regexs.length then none
  else scanOffsets lines regexs (List.range (lines.length - regexs.length))

/-- Literal part of the first diagnostic pattern
`^ERROR: No supported gcc/g\+\+ host compiler found, but .* is available.$`. -/
def errLit : List Char :=
  "ERROR: No supported gcc/g++ host compiler found, but ".toList

/-- Literal tail (before the final `.`) of the first diagnostic pattern. -/
def errTail : List Char := " is available".toList

/-- `re.match` with the first diagnostic pattern.  The input lines come from
splitting the diagnostic stream on newlines, so `.` is modelled as "any
character other than a newline" and `$` as end of string.  The pattern has
no group, so a match carries `none`. -/
def matchPattern1 (line : String) : Option (Option String) :=
  let cs := line.toList
  if errLit.isPrefixOf cs then
    let rest := cs.drop errLit.length
    if errTail.length + 1 ≤ rest.length ∧ errTail.isSuffixOf rest.dropLast ∧
        rest.all (fun c => c ≠ '\n') then
      some none
    else none
  else none

/-- Literal part of the second diagnostic pattern
`^ *Use 'nvcc (.*)' to use that instead.$`. -/
def useLit : List Char := "Use 'nvcc ".toList

/-- Literal tail (between the group and the final `.`) of the second
diagnostic pattern. -/
def useTail : List Char := "' to use that instead".toList

/-- `re.match` with the second diagnostic pattern: optional leading spaces,
the literal, a group capturing up to the fixed-length tail anchored at the
end of the line, modelling `.` as any non-newline character.  A match
carries `some group1`. -/
def matchPattern2 (line : String) : Option (Option String) :=
  let t := line.toList.dropWhile (fun c => c = ' ')
  if useLit.isPrefixOf t then
    let r := t.drop useLit.length
    if useTail.length + 1 ≤ r.length ∧ useTail.isSuffixOf r.dropLast ∧
        r.all (fun c => c ≠ '\n') then
      some (some (String.mk (r.take (r.length - (useTail.length + 1)))))
    else none
  else none

/-! ## Compile settings, version caches, and the per-dependency checks

Each `check_*` function receives the dictionary produced by
`get_compiler_setting` (modelled as the `Settings` record) and calls
`build_and_run`.  The outcome of that call — the captured stdout, or the
exception it raised — is passed in explicitly as `probe : Except String
String`, standing for the `try: out = build_and_run(...)` boundary.  The
module-level caches are the `BuildState` record.  A check returns the
Python return value together with the updated state and settings;
`Except` captures exceptions that escape the check itself (e.g. the
`ValueError` from `int(out)` on unparsable stdout, which is outside the
`try` block in the source). -/

/-- The compile-configuration dictionary built by `get_compiler_setting`:
include dirs, library dirs, macro definitions, extra compile flags. -/
structure Settings where
  include_dirs : List String
  library_dirs : List String
  define_macros : List (String × PyVal)
  extra_compile_args : List String
deriving DecidableEq, Repr

/-- The module-level version caches (`_hip_version`, `_thrust_version`, ...);
`none` models the initial Python `None` of each global. -/
structure BuildState where
  hip_version : Option Int := none
  thrust_version : Option Int := none
  cudnn_version : Option Int := none
  nccl_version : Option Int := none
  cutensor_version : Option Int := none
  cub_version : Option Int := none
  jitify_version : Option PyVal := none
  compute_capabilities : Option (Finset Int) := none
  cusparselt_version : Option Int := none
deriving DecidableEq

/-- The initial state of the module: no check has run yet. -/
def initState : BuildState := {}

/-- `minimum_cudnn_version = 7600`. -/
def minimum_cudnn_version : Int := 7600

/-- `minimum_hip_version = 305` (ROCm 3.5.0+). -/
def minimum_hip_version : Int := 305

/-- `check_hip_version`: on a probe exception, warn and return `False`
leaving the cache unchanged; otherwise cache `int(out)` and reject
(`False`) exactly when it is below `minimum_hip_version`. -/
def check_hip_version (settings : Settings) (probe : Except String String)
    (st : BuildState) : Except String (Bool × BuildState × Settings) :=
  match probe with
  | .error _ => .ok (false, st, settings)
  | .ok out =>
    match pyInt out with
    | none => .error "ValueError: invalid literal for int()"
    | some v =>
      .ok (if v < minimum_hip_version then false else true,
        { st with hip_version := some v }, settings)

/-- `check_thrust_version`: no version floor; cache `int(out)` and return
`True`, or warn and return `False` if the probe raised. -/
def check_thrust_version (settings : Settings) (probe : Except String String)
    (st : BuildState) : Except String (Bool × BuildState × Settings) :=
  match probe with
  | .error _ => .ok (false, st, settings)
  | .ok out =>
    match pyInt out with
    | none => .error "ValueError: invalid literal for int()"
    | some v => .ok (true, { st with thrust_version := some v }, settings)

/-- `check_cudnn_version`: cache `int(out)`; reject (`False`) exactly when
`not minimum_cudnn_version <= _cudnn_version`. -/
def check_cudnn_version (settings : Settings) (probe : Except String String)
    (st : BuildState) : Except String (Bool × BuildState × Settings) :=
  match probe with
  | .error _ => .ok (false, st, settings)
  | .ok out =>
    match pyInt out with
    | none => .error "ValueError: invalid literal for int()"
    | some v =>
      .ok (if ¬ minimum_cudnn_version ≤ v then false else true,
        { st with cudnn_version := some v }, settings)

/-- `check_nccl_version`: no version floor (0 means NCCL 1.x); cache
`int(out)` and return `True`, or warn and return `False` on a probe
exception. -/
def check_nccl_version (settings : Settings) (probe : Except String String)
    (st : BuildState) : Except String (Bool × BuildState × Settings) :=
  match probe with
  | .error _ => .ok (false, st, settings)
  | .ok out =>
    match pyInt out with
    | none => .error "ValueError: invalid literal for int()"
    | some v => .ok (true, { st with nccl_version := some v }, settings)

/-- `check_cutensor_version`: cache `int(out)`; reject (`False`) versions
below 2000. -/
def check_cutensor_version (settings : Settings) (probe : Except String String)
    (st : BuildState) : Except String (Bool × BuildState × Settings) :=
  match probe with
  | .error _ => .ok (false, st, settings)
  | .ok out =>
    match pyInt out with
    | none => .error "ValueError: invalid literal for int()"
    | some v =>
      .ok (if v < 2000 then false else true,
        { st with cutensor_version := some v }, settings)

/-- `check_cusparselt_version`: no version floor; cache `int(out)` and
return `True`, or warn and return `False` on a probe exception. -/
def check_cusparselt_version (settings : Settings) (probe : Except String String)
    (st : BuildState) : Except String (Bool × BuildState × Settings) :=
  match probe with
  | .error _ => .ok (false, st, settings)
  | .ok out =>
    match pyInt out with
    | none => .error "ValueError: invalid literal for int()"
    | some v => .ok (true, { st with cusparselt_version := some v }, settings)

/-- `check_compute_capabilities`: everything, including the
`set([int(o) for o in out.split()])` parse, happens inside the `try`
block, so this function never raises: any failure is a warning plus
`False`, and success stores the set of distinct parsed integers. -/
def check_compute_capabilities (settings : Settings) (probe : Except String String)
    (st : BuildState) : Bool × BuildState × Settings :=
  match probe with
  | .error _ => (false, st, settings)
  | .ok out =>
    match (pySplit out).mapM pyInt with
    | none => (false, st, settings)
    | some ns =>
      (true, { st with compute_capabilities := some ns.toFinset }, settings)

/-- `if tag.startswith('v'): tag = tag[1:]` — the CUB tag convention changed
after 1.8.0 from `v1.9.0` to `1.9.0`, so a single leading `v` is stripped. -/
def stripV (t : String) : String :=
  match t.toList with
  | 'v' :: rest => String.mk rest
  | _ => t

/-- Normalization of a `git describe --tags` tag into the `CUB_VERSION`
integer scheme (lines 556-567 of `install_build.py`): split the
`v`-stripped tag on dots, compute `int(tag[0]) * 100000 + int(tag[1]) * 100`,
then add `int(tag[2])`; if that `int()` raises `ValueError` (e.g. for
`0-5-gdcbb288f`), split the third component on `-` and add
`int(local_patch[0]) + int(local_patch[1])` instead.  `none` models any
exception escaping this block (a missing component's `IndexError`, or a
`ValueError` outside the inner `try`), which the caller's outer `except`
turns into the `-1` sentinel. -/
def cubVersionFromTag (tag0 : String) : Option Int :=
  match pySplitOn '.' (stripV tag0) with
  | sx :: sy :: rest =>
    match pyInt sx, pyInt sy with
    | some x, some y =>
      let base := x * 100000 + y * 100
      match rest with
      | [] => none
      | sz :: _ =>
        match pyInt sz with
        | some z => some (base + z)
        | none =>
          match pySplitOn '-' sz with
          | p :: q :: _ =>
            match pyInt p, pyInt q with
            | some z, some n => some (base + z + n)
            | _, _ => none
          | _ => none
    | _, _ => none
  | _ => none

/-- `check_cub_version`: if the compile probe succeeds, `_cub_version =
int(out)` (the `int` call sits outside every `try`, so an unparsable
stdout raises out of the function).  If the probe raised, fall back to
`git describe --tags` (`gitTag`: captured stdout, or `.error` for a
non-zero exit or a failed spawn), normalize the newline-stripped tag, and
use `-1` when anything in the fallback fails.  In every non-raising case
the version is cached, `('CUPY_CUB_VERSION_CODE', _cub_version)` is
appended to `settings['define_macros']`, and `True` is returned (CUB is
always built). -/
def check_cub_version (settings : Settings) (probe : Except String String)
    (gitTag : Except String String) (st : BuildState) :
    Except String (Bool × BuildState × Settings) :=
  let out? : Option Int :=
    match probe with
    | .ok stdout => pyInt stdout
    | .error _ =>
      some (match gitTag with
        | .ok stdout =>
          match cubVersionFromTag (pyDropLast stdout) with
          | some v => v
          | none => -1
        | .error _ => -1)
  match out? with
  | none => .error "ValueError: invalid literal for int()"
  | some v =>
    .ok (true, { st with cub_version := some v },
      { settings with define_macros :=
          settings.define_macros ++ [("CUPY_CUB_VERSION_CODE", PyVal.int v)] })

/-- `check_jitify_version`: Jitify has no version identifier, so the check
runs `git rev-parse --short HEAD` (`gitrev`: captured stdout, or `.error`
for a non-zero exit or failed spawn), caches the newline-stripped commit
string — or the integer `-1` sentinel on failure — appends
`('CUPY_JITIFY_VERSION_CODE', _jitify_version)` to
`settings['define_macros']`, and always returns `True`. -/
def check_jitify_version (settings : Settings) (gitrev : Except String String)
    (st : BuildState) : Bool × BuildState × Settings :=
  let out : PyVal :=
    match gitrev with
    | .ok stdout => .str (pyDropLast stdout)
    | .error _ => .int (-1)
  (true, { st with jitify_version := some out },
    { settings with define_macros :=
        settings.define_macros ++ [("CUPY_JITIFY_VERSION_CODE", out)] })

/-! ## The version accessors

Every accessor reads its module-level cache; all but
`get_compute_capabilities` raise `RuntimeError('check_*() must be called
first.')` while the cache is still `None`. -/

/-- `get_hip_version(formatted=False)`. -/
def get_hip_version (st : BuildState) (formatted : Bool) : Except String PyVal :=
  match st.hip_version with
  | none => .error "check_hip_version() must be called first."
  | some v => if formatted then .ok (.str (toString v)) else .ok (.int v)

/-- `get_thrust_version(formatted=False)`. -/
def get_thrust_version (st : BuildState) (formatted : Bool) : Except String PyVal :=
  match st.thrust_version with
  | none => .error "check_thrust_version() must be called first."
  | some v => if formatted then .ok (.str (toString v)) else .ok (.int v)

/-- `get_cudnn_version(formatted=False)`. -/
def get_cudnn_version (st : BuildState) (formatted : Bool) : Except String PyVal :=
  match st.cudnn_version with
  | none => .error "check_cudnn_version() must be called first."
  | some v => if formatted then .ok (.str (toString v)) else .ok (.int v)

/-- `get_nccl_version(formatted=False)`; the formatted form of the 0
sentinel is `'1.x'`. -/
def get_nccl_version (st : BuildState) (formatted : Bool) : Except String PyVal :=
  match st.nccl_version with
  | none => .error "check_nccl_version() must be called first."
  | some v =>
    if formatted then
      if v = 0 then .ok (.str "1.x") else .ok (.str (toString v))
    else .ok (.int v)

/-- `get_cub_version(formatted=False)`; the formatted form of the `-1`
sentinel is `'<unknown>'`. -/
def get_cub_version (st : BuildState) (formatted : Bool) : Except String PyVal :=
  match st.cub_version with
  | none => .error "check_cub_version() must be called first."
  | some v =>
    if formatted then
      if v = -1 then .ok (.str "<unknown>") else .ok (.str (toString v))
    else .ok (.int v)

/-- `get_jitify_version(formatted=True)`: formatted, the `-1` sentinel reads
`'<unknown>'` and a commit is returned as the cached string; unformatted,
the function always raises `RuntimeError('Jitify version is a commit
string')`. -/
def get_jitify_version (st : BuildState) (formatted : Bool) : Except String PyVal :=
  match st.jitify_version with
  | none => .error "check_jitify_version() must be called first."
  | some v =>
    if formatted then
      if v = PyVal.int (-1) then .ok (.str "<unknown>") else .ok v
    else .error "Jitify version is a commit string"

/-- `get_cutensor_version(formatted=False)`: the `formatted` parameter is
accepted but ignored by the source. -/
def get_cutensor_version (st : BuildState) (_formatted : Bool) : Except String PyVal :=
  match st.cutensor_version with
  | none => .error "check_cutensor_version() must be called first."
  | some v => .ok (.int v)

/-- `get_cusparselt_version(formatted=False)`: the `formatted` parameter is
accepted but ignored by the source. -/
def get_cusparselt_version (st : BuildState) (_formatted : Bool) : Except String PyVal :=
  match st.cusparselt_version with
  | none => .error "check_cusparselt_version() must be called first."
  | some v => .ok (.int v)

/-- `get_compute_capabilities(formatted=False)`: the source (lines 376-377)
performs no not-yet-checked guard — it simply returns the module-level
`_compute_capabilities`, which is still `None` before the check has run.
It is modelled in the same raise-or-return type as the other accessors to
make the absence of the raise visible. -/
def get_compute_capabilities (st : BuildState) (_formatted : Bool) :
    Except String (Option (Finset Int)) :=
  .ok st.compute_capabilities

/-! ## The workspace primitive: `_tempdir`, `build_shlib`, `build_and_run`

The filesystem is modelled as a `World`: a counter supplying fresh
temporary-directory names (`mkdtemp`), the list of live temporary
directories, and the list of files, each tagged with the directory that
contains it.  `_tempdir` is a `with`-statement context manager whose
`finally` clause always runs `shutil.rmtree`; its embedding runs the body —
which returns `Except` instead of raising — and removes the directory on
both outcomes, which is exactly the guarantee of `try/finally`.  The opaque
distutils-style compiler object is a `CompilerModel` giving the outcome of
each of its three operations; the spawned probe binary's behaviour is its
`run` component (captured stdout, or `.error` for a non-zero exit or spawn
failure of `subprocess.check_output`). -/

/-- The modelled filesystem. -/
structure World where
  nextDir : Nat
  liveDirs : List Nat
  files : List (Nat × String)
deriving DecidableEq, Repr

/-- A world is well formed when every live directory and file tag was
produced by an earlier `mkdtemp`, i.e. is below the freshness counter. -/
def World.wf (w : World) : Prop :=
  (∀ d ∈ w.liveDirs, d < w.nextDir) ∧ (∀ f ∈ w.files, f.1 < w.nextDir)

instance (w : World) : Decidable w.wf := by
  unfold World.wf; infer_instance

/-- `tempfile.mkdtemp()`: create and return a fresh directory. -/
def mkdtemp (w : World) : Nat × World :=
  (w.nextDir,
    { w with nextDir := w.nextDir + 1, liveDirs := w.liveDirs ++ [w.nextDir] })

/-- `shutil.rmtree(d, ignore_errors=True)`: remove the directory and every
file inside it. -/
def rmtree (d : Nat) (w : World) : World :=
  { w with liveDirs := w.liveDirs.filter (fun x => x ≠ d),
           files := w.files.filter (fun f => f.1 ≠ d) }

/-- Write a file into directory `d`. -/
def writeFile (d : Nat) (name : String) (w : World) : World :=
  { w with files := w.files ++ [(d, name)] }

/-- The `_tempdir()` context manager: acquire a fresh directory, run the
body, and remove the directory whether the body returned or raised. -/
def withTempdir (body : Nat → World → α × World) (w : World) : α × World :=
  let (d, w1) := mkdtemp w
  let (r, w2) := body d w1
  (r, rmtree d w2)

/-- The outcome of each operation of the opaque compiler object for one
probe, plus the behaviour of the built probe binary. -/
structure CompilerModel where
  compile : Except String (List String)
  link : Except String Unit
  run : Except String String

/-- `build_shlib`: inside one `_tempdir()`, write `a.cpp`, compile it (a
compiler exception propagates), then link a shared library, wrapping a link
failure in `'Cannot build a stub file.'`. -/
def build_shlib (c : CompilerModel) (_source : String) (w : World) :
    Except String Unit × World :=
  withTempdir (fun d w =>
    let w := writeFile d "a.cpp" w
    match c.compile with
    | .error e => (.error e, w)
    | .ok _ =>
      let w := writeFile d "a.o" w
      match c.link with
      | .error e => (.error ("Cannot build a stub file.\nOriginal error: " ++ e), w)
      | .ok _ => (.ok (), writeFile d "a" w)) w

/-- `build_and_run`: inside one `_tempdir()`, write `a.cpp`, compile it,
link an executable (a failure is wrapped in `'Cannot build a stub file.'`),
then execute it and return its captured stdout (a failure is wrapped in
`'Cannot execute a stub file.'`). -/
def build_and_run (c : CompilerModel) (_source : String) (w : World) :
    Except String String × World :=
  withTempdir (fun d w =>
    let w := writeFile d "a.cpp" w
    match c.compile with
    | .error e => (.error e, w)
    | .ok _ =>
      let w := writeFile d "a.o" w
      match c.link with
      | .error e => (.error ("Cannot build a stub file.\nOriginal error: " ++ e), w)
      | .ok _ =>
        let w := writeFile d "a" w
        match c.run with
        | .error e => (.error ("Cannot execute a stub file.\nOriginal error: " ++ e), w)
        | .ok out => (.ok out, w)) w

/-! ## Theorems settling the claims -/

/-- Claim C1: `_match_output_lines` is claimed to consider every start
offset from `0` through `len(lines) - len(regexs)` inclusive.  The code
loops over `range(len(output_lines) - len(regexs))`, which stops one short:
on a single line that the single regex matches (window at the last valid
offset, `0`), the function returns no-match even though the window exists —
the inner window test at offset `0` succeeds while the function returns
`none`. -/
theorem match_output_lines_misses_last_offset :
    match_output_lines ["Use 'nvcc --foo' to use that instead."] [matchPattern2] = none ∧
    windowMatch ["Use 'nvcc --foo' to use that instead."] [matchPattern2] 0 =
      some [some "--foo"] := by
  decide

/-- Claim C4 (counterexample): on the spec's example lines
`["a", "ERROR: X", "Use 'nvcc --foo' to use that instead.", "b"]`, the
matcher with the two documented patterns returns no-match, not `--foo`:
the line `"ERROR: X"` does not match the first documented pattern
`^ERROR: No supported gcc/g\+\+ host compiler found, but .* is available.$`. -/
theorem diagnostic_example_lines_no_match :
    match_output_lines
      ["a", "ERROR: X", "Use 'nvcc --foo' to use that instead.", "b"]
      [matchPattern1, matchPattern2] = none := by
  decide

/-- Claim C4 (amended): with the second line replaced by a line the first
documented pattern actually matches, the matcher returns the captured
alternate-invocation string `--foo`; on lines unrelated to the patterns it
returns no-match. -/
theorem diagnostic_matcher_extracts_alternate_invocation :
    match_output_lines
      ["a", "ERROR: No supported gcc/g++ host compiler found, but clang is available.",
       "Use 'nvcc --foo' to use that instead.", "b"]
      [matchPattern1, matchPattern2] = some [none, some "--foo"] ∧
    match_output_lines ["foo", "bar", "baz", "qux"]
      [matchPattern1, matchPattern2] = none := by
  decide

/-- Claim C2 (counterexample): `get_compute_capabilities`, called before
`check_compute_capabilities` has run (the initial state), does not raise a
'must be called first' error — it returns the uninitialized `None` cache
value normally. -/
theorem get_compute_capabilities_does_not_raise_unchecked :
    get_compute_capabilities initState false = .ok none := by
  rfl

/-- Claim C2 (amended): every version accessor except
`get_compute_capabilities` — i.e. `get_hip_version`, `get_thrust_version`,
`get_cudnn_version`, `get_nccl_version`, `get_cub_version`,
`get_jitify_version`, `get_cutensor_version`, `get_cusparselt_version` —
raises its 'must be called first' `RuntimeError` whenever its cache is
still unset, deterministically; `get_compute_capabilities` instead always
returns its cache value (still `None` before the check) without raising. -/
theorem accessors_before_check_raise :
    (∀ st f, st.hip_version = none →
      get_hip_version st f = .error "check_hip_version() must be called first.") ∧
    (∀ st f, st.thrust_version = none →
      get_thrust_version st f = .error "check_thrust_version() must be called first.") ∧
    (∀ st f, st.cudnn_version = none →
      get_cudnn_version st f = .error "check_cudnn_version() must be called first.") ∧
    (∀ st f, st.nccl_version = none →
      get_nccl_version st f = .error "check_nccl_version() must be called first.") ∧
    (∀ st f, st.cub_version = none →
      get_cub_version st f = .error "check_cub_version() must be called first.") ∧
    (∀ st f, st.jitify_version = none →
      get_jitify_version st f = .error "check_jitify_version() must be called first.") ∧
    (∀ st f, st.cutensor_version = none →
      get_cutensor_version st f = .error "check_cutensor_version() must be called first.") ∧
    (∀ st f, st.cusparselt_version = none →
      get_cusparselt_version st f = .error "check_cusparselt_version() must be called first.") ∧
    (∀ st f, get_compute_capabilities st f = .ok st.compute_capabilities) := by
  refine ⟨?_, ?_, ?_, ?_, ?_, ?_, ?_, ?_, ?_⟩ <;>
    intro st f <;>
    first
      | (intro h
         simp [get_hip_version, get_thrust_version, get_cudnn_version,
           get_nccl_version, get_cub_version, get_jitify_version,
           get_cutensor_version, get_cusparselt_version, h])
      | rfl

/-- Witness for the amended claim C2 at the initial state. -/
theorem accessors_before_check_raise_witness :
    get_hip_version initState false = .error "check_hip_version() must be called first." ∧
    get_thrust_version initState false =
      .error "check_thrust_version() must be called first." ∧
    get_cudnn_version initState false =
      .error "check_cudnn_version() must be called first." ∧
    get_nccl_version initState false = .error "check_nccl_version() must be called first." ∧
    get_cub_version initState false = .error "check_cub_version() must be called first." ∧
    get_jitify_version initState true =
      .error "check_jitify_version() must be called first." ∧
    get_cutensor_version initState false =
      .error "check_cutensor_version() must be called first." ∧
    get_cusparselt_version initState false =
      .error "check_cusparselt_version() must be called first." ∧
    get_compute_capabilities initState false = .ok none :=
  ⟨accessors_before_check_raise.1 initState false rfl,
   accessors_before_check_raise.2.1 initState false rfl,
   accessors_before_check_raise.2.2.1 initState false rfl,
   accessors_before_check_raise.2.2.2.1 initState false rfl,
   accessors_before_check_raise.2.2.2.2.1 initState false rfl,
   accessors_before_check_raise.2.2.2.2.2.1 initState true rfl,
   accessors_before_check_raise.2.2.2.2.2.2.1 initState false rfl,
   accessors_before_check_raise.2.2.2.2.2.2.2.1 initState false rfl,
   accessors_before_check_raise.2.2.2.2.2.2.2.2 initState false⟩

/-- Claim C5: the version floors are inclusive.  A cuDNN probe printing
exactly the floor `7600` is accepted (`True`) while `7599` is rejected with
a warning and `False`; a HIP probe printing exactly the floor `305` is
accepted while `304` is rejected.  In all four cases the probed version is
cached and no exception is raised. -/
theorem version_floor_inclusive (settings : Settings) (st : BuildState) :
    check_cudnn_version settings (.ok "7600") st =
      .ok (true, { st with cudnn_version := some 7600 }, settings) ∧
    check_cudnn_version settings (.ok "7599") st =
      .ok (false, { st with cudnn_version := some 7599 }, settings) ∧
    check_hip_version settings (.ok "305") st =
      .ok (true, { st with hip_version := some 305 }, settings) ∧
    check_hip_version settings (.ok "304") st =
      .ok (false, { st with hip_version := some 304 }, settings) := by
  refine ⟨?_, ?_, ?_, ?_⟩ <;> rfl

/-- Claim C9: for every check that goes through `build_and_run` — HIP,
Thrust, cuDNN, NCCL, cuTENSOR, cuSPARSELt, and compute capabilities — a
probe that raises makes the check warn and return `False`, with the whole
version-cache state (in particular the check's own cached variable, still
unset if it was unset) and the settings left unchanged, and no exception
propagating. -/
theorem probe_failure_treated_as_absent (settings : Settings) (e : String)
    (st : BuildState) :
    check_hip_version settings (.error e) st = .ok (false, st, settings) ∧
    check_thrust_version settings (.error e) st = .ok (false, st, settings) ∧
    check_cudnn_version settings (.error e) st = .ok (false, st, settings) ∧
    check_nccl_version settings (.error e) st = .ok (false, st, settings) ∧
    check_cutensor_version settings (.error e) st = .ok (false, st, settings) ∧
    check_cusparselt_version settings (.error e) st = .ok (false, st, settings) ∧
    check_compute_capabilities settings (.error e) st = (false, st, settings) := by
  refine ⟨?_, ?_, ?_, ?_, ?_, ?_, ?_⟩ <;> rfl

/-- Claim C10: once `check_jitify_version` has cached a value,
`get_jitify_version(formatted=True)` returns the cached commit string — or
`'<unknown>'` when the cache holds the `-1` sentinel — while
`get_jitify_version(formatted=False)` always raises
`RuntimeError('Jitify version is a commit string')`, so the version can
never be read unformatted. -/
theorem jitify_version_formatted_only :
    (∀ st c, st.jitify_version = some (PyVal.str c) →
      get_jitify_version st true = .ok (PyVal.str c)) ∧
    (∀ st : BuildState, st.jitify_version = some (PyVal.int (-1)) →
      get_jitify_version st true = .ok (PyVal.str "<unknown>")) ∧
    (∀ st v, st.jitify_version = some v →
      get_jitify_version st false = .error "Jitify version is a commit string") := by
  refine ⟨?_, ?_, ?_⟩ <;> intro st
  · intro c h; simp [get_jitify_version, h]
  · intro h; simp [get_jitify_version, h]
  · intro v h; simp [get_jitify_version, h]

/-- Witness for claim C10 on a state holding a commit string, after an
actual `check_jitify_version` run, and on one holding the `-1` sentinel. -/
theorem jitify_version_formatted_only_witness :
    get_jitify_version
      (check_jitify_version ⟨[], [], [], []⟩ (.ok "dcbb288f\n") initState).2.1 true =
      .ok (PyVal.str "dcbb288f") ∧
    get_jitify_version { initState with jitify_version := some (PyVal.int (-1)) } true =
      .ok (PyVal.str "<unknown>") ∧
    get_jitify_version
      (check_jitify_version ⟨[], [], [], []⟩ (.ok "dcbb288f\n") initState).2.1 false =
      .error "Jitify version is a commit string" :=
  ⟨jitify_version_formatted_only.1 _ "dcbb288f" (by decide),
   jitify_version_formatted_only.2.1 _ rfl,
   jitify_version_formatted_only.2.2 _ (PyVal.str "dcbb288f") (by decide)⟩

/-- Helper: the successful branch of `check_compute_capabilities`, for any
stdout whose whitespace-separated tokens all parse as integers. -/
theorem check_compute_capabilities_ok (settings : Settings) (st : BuildState)
    (out : String) (ns : List Int) (h : (pySplit out).mapM pyInt = some ns) :
    check_compute_capabilities settings (.ok out) st =
      (true, { st with compute_capabilities := some ns.toFinset }, settings) := by
  simp only [check_compute_capabilities]
  rw [h]

/-- Claim C6: whenever the probe stdout consists of whitespace-separated
integer tokens, `check_compute_capabilities` caches the set of the parsed
integers — duplicates across devices collapse — and returns `True`; in
particular `"75 75 86 "` yields the set `{75, 86}` and the empty output
yields the empty set and `True`, not an error. -/
theorem compute_capabilities_distinct_set :
    (∀ (settings : Settings) (st : BuildState) (out : String) (ns : List Int),
      (pySplit out).mapM pyInt = some ns →
      check_compute_capabilities settings (.ok out) st =
        (true, { st with compute_capabilities := some ns.toFinset }, settings)) ∧
    (∀ (settings : Settings) (st : BuildState),
      check_compute_capabilities settings (.ok "75 75 86 ") st =
        (true, { st with compute_capabilities := some ({75, 86} : Finset Int) },
          settings)) ∧
    (∀ (settings : Settings) (st : BuildState),
      check_compute_capabilities settings (.ok "") st =
        (true, { st with compute_capabilities := some (∅ : Finset Int) }, settings)) := by
  have hdup : ([75, 75, 86] : List Int).toFinset = ({75, 86} : Finset Int) := by decide
  refine ⟨check_compute_capabilities_ok, ?_, ?_⟩
  · intro settings st
    rw [check_compute_capabilities_ok settings st "75 75 86 " [75, 75, 86] (by decide),
      hdup]
  · intro settings st
    rw [check_compute_capabilities_ok settings st "" [] (by decide)]
    rfl

/-- Witness for claim C6: a probe printing `"90 90"` caches `{90}`. -/
theorem compute_capabilities_distinct_set_witness :
    check_compute_capabilities ⟨[], [], [], []⟩ (.ok "90 90") initState =
      (true,
        { initState with compute_capabilities := some (({90} : Finset Int)) },
        ⟨[], [], [], []⟩) := by
  rw [compute_capabilities_distinct_set.1 ⟨[], [], [], []⟩ initState "90 90" [90, 90]
    (by decide)]
  decide

/-- Claim C3 (counterexample): `check_jitify_version` does modify the
settings object it receives — it appends the version-code macro to
`define_macros`. -/
theorem check_jitify_version_mutates_settings :
    (check_jitify_version ⟨[], [], [], []⟩ (.ok "dcbb288f\n") initState).2.2 ≠
      (⟨[], [], [], []⟩ : Settings) := by
  decide

/-- Claim C3 (amended): every `check_*` function other than
`check_cub_version` and `check_jitify_version` returns the settings object
unmodified; those two return it with exactly one macro definition — the
detected version code — appended to `define_macros`, all other fields
unchanged. -/
theorem checks_settings_frame :
    (∀ s p st b st' s', check_hip_version s p st = .ok (b, st', s') → s' = s) ∧
    (∀ s p st b st' s', check_thrust_version s p st = .ok (b, st', s') → s' = s) ∧
    (∀ s p st b st' s', check_cudnn_version s p st = .ok (b, st', s') → s' = s) ∧
    (∀ s p st b st' s', check_nccl_version s p st = .ok (b, st', s') → s' = s) ∧
    (∀ s p st b st' s', check_cutensor_version s p st = .ok (b, st', s') → s' = s) ∧
    (∀ s p st b st' s', check_cusparselt_version s p st = .ok (b, st', s') → s' = s) ∧
    (∀ s p st, (check_compute_capabilities s p st).2.2 = s) ∧
    (∀ s p g st b st' s', check_cub_version s p g st = .ok (b, st', s') →
      s'.include_dirs = s.include_dirs ∧ s'.library_dirs = s.library_dirs ∧
      s'.extra_compile_args = s.extra_compile_args ∧
      ∃ v : Int, s'.define_macros =
        s.define_macros ++ [("CUPY_CUB_VERSION_CODE", PyVal.int v)]) ∧
    (∀ s g st, ∃ v : PyVal, (check_jitify_version s g st).2.2 =
      { s with define_macros :=
          s.define_macros ++ [("CUPY_JITIFY_VERSION_CODE", v)] }) := by
  refine ⟨?_, ?_, ?_, ?_, ?_, ?_, ?_, ?_, ?_⟩
  case _ =>
    intro s p st b st' s' h
    cases p with
    | error e => simp [check_hip_version] at h; exact h.2.2.symm
    | ok out =>
      cases hv : pyInt out with
      | none => simp [check_hip_version, hv] at h
      | some v => simp [check_hip_version, hv] at h; exact h.2.2.symm
  case _ =>
    intro s p st b st' s' h
    cases p with
    | error e => simp [check_thrust_version] at h; exact h.2.2.symm
    | ok out =>
      cases hv : pyInt out with
      | none => simp [check_thrust_version, hv] at h
      | some v => simp [check_thrust_version, hv] at h; exact h.2.2.symm
  case _ =>
    intro s p st b st' s' h
    cases p with
    | error e => simp [check_cudnn_version] at h; exact h.2.2.symm
    | ok out =>
      cases hv : pyInt out with
      | none => simp [check_cudnn_version, hv] at h
      | some v => simp [check_cudnn_version, hv] at h; exact h.2.2.symm
  case _ =>
    intro s p st b st' s' h
    cases p with
    | error e => simp [check_nccl_version] at h; exact h.2.2.symm
    | ok out =>
      cases hv : pyInt out with
      | none => simp [check_nccl_version, hv] at h
      | some v => simp [check_nccl_version, hv] at h; exact h.2.2.symm
  case _ =>
    intro s p st b st' s' h
    cases p with
    | error e => simp [check_cutensor_version] at h; exact h.2.2.symm
    | ok out =>
      cases hv : pyInt out with
      | none => simp [check_cutensor_version, hv] at h
      | some v => simp [check_cutensor_version, hv] at h; exact h.2.2.symm
  case _ =>
    intro s p st b st' s' h
    cases p with
    | error e => simp [check_cusparselt_version] at h; exact h.2.2.symm
    | ok out =>
      cases hv : pyInt out with
      | none => simp [check_cusparselt_version, hv] at h
      | some v => simp [check_cusparselt_version, hv] at h; exact h.2.2.symm
  case _ =>
    intro s p st
    cases p with
    | error e => rfl
    | ok out =>
      simp only [check_compute_capabilities]
      rcases (pySplit out).mapM pyInt with _ | ns <;> rfl
  case _ =>
    intro s p g st b st' s' h
    cases p with
    | ok stdout =>
      cases hv : pyInt stdout with
      | none => simp [check_cub_version, hv] at h
      | some v =>
        simp [check_cub_version, hv] at h
        obtain ⟨hb, hst, hs⟩ := h
        subst hs
        exact ⟨rfl, rfl, rfl, v, rfl⟩
    | error e =>
      simp [check_cub_version] at h
      obtain ⟨hb, hst, hs⟩ := h
      subst hs
      exact ⟨rfl, rfl, rfl, _, rfl⟩
  case _ =>
    intro s g st
    cases g with
    | ok stdout => exact ⟨PyVal.str (pyDropLast stdout), rfl⟩
    | error e => exact ⟨PyVal.int (-1), rfl⟩

/-- Witness for the amended claim C3: each hypothesis-bearing part applied
at a concrete check invocation, including `check_cub_version` on a failed
probe with git tag `v1.9.0` (version code 100900). -/
theorem checks_settings_frame_witness :
    ((⟨["i"], [], [], []⟩ : Settings) = ⟨["i"], [], [], []⟩) ∧
    ((⟨["t"], [], [], []⟩ : Settings) = ⟨["t"], [], [], []⟩) ∧
    ((⟨["c"], [], [], []⟩ : Settings) = ⟨["c"], [], [], []⟩) ∧
    ((⟨["n"], [], [], []⟩ : Settings) = ⟨["n"], [], [], []⟩) ∧
    ((⟨["u"], [], [], []⟩ : Settings) = ⟨["u"], [], [], []⟩) ∧
    ((⟨["s"], [], [], []⟩ : Settings) = ⟨["s"], [], [], []⟩) ∧
    ((⟨["g"], ["lg"], [("A", PyVal.int 0), ("CUPY_CUB_VERSION_CODE", PyVal.int 100900)],
        ["-x"]⟩ : Settings).include_dirs =
      (⟨["g"], ["lg"], [("A", PyVal.int 0)], ["-x"]⟩ : Settings).include_dirs ∧
     (⟨["g"], ["lg"], [("A", PyVal.int 0), ("CUPY_CUB_VERSION_CODE", PyVal.int 100900)],
        ["-x"]⟩ : Settings).library_dirs =
      (⟨["g"], ["lg"], [("A", PyVal.int 0)], ["-x"]⟩ : Settings).library_dirs ∧
     (⟨["g"], ["lg"], [("A", PyVal.int 0), ("CUPY_CUB_VERSION_CODE", PyVal.int 100900)],
        ["-x"]⟩ : Settings).extra_compile_args =
      (⟨["g"], ["lg"], [("A", PyVal.int 0)], ["-x"]⟩ : Settings).extra_compile_args ∧
     ∃ v : Int,
      (⟨["g"], ["lg"], [("A", PyVal.int 0), ("CUPY_CUB_VERSION_CODE", PyVal.int 100900)],
        ["-x"]⟩ : Settings).define_macros =
        (⟨["g"], ["lg"], [("A", PyVal.int 0)], ["-x"]⟩ : Settings).define_macros ++
          [("CUPY_CUB_VERSION_CODE", PyVal.int v)]) :=
  ⟨checks_settings_frame.1 ⟨["i"], [], [], []⟩ (.ok "305") initState true
      { initState with hip_version := some 305 } ⟨["i"], [], [], []⟩ rfl,
   checks_settings_frame.2.1 ⟨["t"], [], [], []⟩ (.ok "200802") initState true
      { initState with thrust_version := some 200802 } ⟨["t"], [], [], []⟩ rfl,
   checks_settings_frame.2.2.1 ⟨["c"], [], [], []⟩ (.ok "7600") initState true
      { initState with cudnn_version := some 7600 } ⟨["c"], [], [], []⟩ rfl,
   checks_settings_frame.2.2.2.1 ⟨["n"], [], [], []⟩ (.ok "21903") initState true
      { initState with nccl_version := some 21903 } ⟨["n"], [], [], []⟩ rfl,
   checks_settings_frame.2.2.2.2.1 ⟨["u"], [], [], []⟩ (.ok "2000") initState true
      { initState with cutensor_version := some 2000 } ⟨["u"], [], [], []⟩ rfl,
   checks_settings_frame.2.2.2.2.2.1 ⟨["s"], [], [], []⟩ (.ok "600") initState true
      { initState with cusparselt_version := some 600 } ⟨["s"], [], [], []⟩ rfl,
   checks_settings_frame.2.2.2.2.2.2.2.1 ⟨["g"], ["lg"], [("A", PyVal.int 0)], ["-x"]⟩
      (.error "compile failed") (.ok "v1.9.0\n") initState true
      { initState with cub_version := some 100900 }
      ⟨["g"], ["lg"], [("A", PyVal.int 0), ("CUPY_CUB_VERSION_CODE", PyVal.int 100900)],
        ["-x"]⟩ rfl⟩

/-- Claim C8: in the git-tag fallback of `check_cub_version`, a tag whose
`v`-stripped form splits on dots into three integer components `X.Y.Z` is
normalized to `X*100000 + Y*100 + Z`, and a tag of the form
`X.Y.Z-N-g<hash>` — whose third dot-component is not an integer and splits
on dashes into `Z`, `N`, and the hash — is normalized to
`X*100000 + Y*100 + Z + N` (the commit count is added to the patch
component). -/
theorem cub_git_tag_normalization :
    (∀ (tag sx sy sz : String) (x y z : Int),
      pySplitOn '.' (stripV tag) = [sx, sy, sz] →
      pyInt sx = some x → pyInt sy = some y → pyInt sz = some z →
      cubVersionFromTag tag = some (x * 100000 + y * 100 + z)) ∧
    (∀ (tag sx sy sz p q : String) (hash : List String) (x y z n : Int),
      pySplitOn '.' (stripV tag) = [sx, sy, sz] →
      pyInt sx = some x → pyInt sy = some y → pyInt sz = none →
      pySplitOn '-' sz = p :: q :: hash →
      pyInt p = some z → pyInt q = some n →
      cubVersionFromTag tag = some (x * 100000 + y * 100 + z + n)) := by
  constructor
  · intro tag sx sy sz x y z hsplit hx hy hz
    unfold cubVersionFromTag
    rw [hsplit]
    simp [hx, hy, hz]
  · intro tag sx sy sz p q hash x y z n hsplit hx hy hz hdash hp hq
    unfold cubVersionFromTag
    rw [hsplit]
    simp [hx, hy, hz, hdash, hp, hq]

/-- Witness for claim C8: tag `v1.9.10` normalizes to 100910, and tag
`1.8.0-5-gdcbb288f` (five commits after 1.8.0) normalizes to 100805. -/
theorem cub_git_tag_normalization_witness :
    cubVersionFromTag "v1.9.10" = some 100910 ∧
    cubVersionFromTag "1.8.0-5-gdcbb288f" = some 100805 :=
  ⟨cub_git_tag_normalization.1 "v1.9.10" "1" "9" "10" 1 9 10 (by decide) (by decide)
      (by decide) (by decide),
   cub_git_tag_normalization.2 "1.8.0-5-gdcbb288f" "1" "8" "0-5-gdcbb288f" "0" "5"
      ["gdcbb288f"] 1 8 0 5 (by decide) (by decide) (by decide) (by decide) (by decide)
      (by decide) (by decide)⟩

/-- Helper: removing a fresh directory from the live list restores it. -/
theorem filter_fresh_dir (l : List Nat) (n : Nat) (h : ∀ d ∈ l, d < n) :
    (l ++ [n]).filter (fun x => x ≠ n) = l := by
  rw [List.filter_append]
  have h1 : l.filter (fun x => x ≠ n) = l :=
    List.filter_eq_self.mpr fun a ha => by
      simpa using Nat.ne_of_lt (h a ha)
  have h2 : [n].filter (fun x => x ≠ n) = [] := by simp
  rw [h1, h2, List.append_nil]

/-- Helper: removing the files of a fresh directory restores the file list,
for any files written into that directory during the probe. -/
theorem filter_fresh_files (l add : List (Nat × String)) (n : Nat)
    (h : ∀ f ∈ l, f.1 < n) (hadd : ∀ f ∈ add, f.1 = n) :
    (l ++ add).filter (fun f => f.1 ≠ n) = l := by
  rw [List.filter_append]
  have h1 : l.filter (fun f => f.1 ≠ n) = l :=
    List.filter_eq_self.mpr fun a ha => by
      simpa using Nat.ne_of_lt (h a ha)
  have h2 : add.filter (fun f => f.1 ≠ n) = [] := by
    rw [List.filter_eq_nil_iff]
    intro a ha
    simpa using hadd a ha
  rw [h1, h2, List.append_nil]

/-- Claim C7: every invocation of `build_and_run` or `build_shlib` on a
well-formed world creates exactly one temporary workspace directory (the
freshness counter advances by exactly one), confines every generated file
to it, and removes it on every exit path — normal return, compile failure,
link failure, execution failure — so the final world is the initial world
with only the counter advanced: the directory no longer exists and no
generated file survives. -/
theorem workspace_lifecycle (c : CompilerModel) (src : String) (w : World)
    (hwf : w.wf) :
    (build_and_run c src w).2 = { w with nextDir := w.nextDir + 1 } ∧
    (build_shlib c src w).2 = { w with nextDir := w.nextDir + 1 } := by
  obtain ⟨hl, hf⟩ := hwf
  have hlive : (w.liveDirs ++ [w.nextDir]).filter (fun x => x ≠ w.nextDir) = w.liveDirs :=
    filter_fresh_dir w.liveDirs w.nextDir hl
  constructor
  · unfold build_and_run withTempdir mkdtemp rmtree writeFile
    cases c.compile with
    | error e =>
      simp only []
      rw [World.mk.injEq]
      refine ⟨rfl, hlive, ?_⟩
      exact filter_fresh_files w.files [(w.nextDir, "a.cpp")] w.nextDir hf
        (by intro f hf'; simp at hf'; simp [hf'])
    | ok objs =>
      cases c.link with
      | error e =>
        simp only []
        rw [World.mk.injEq]
        refine ⟨rfl, hlive, ?_⟩
        rw [List.append_assoc]
        exact filter_fresh_files w.files ([(w.nextDir, "a.cpp")] ++ [(w.nextDir, "a.o")])
          w.nextDir hf (by intro f hf'; simp at hf'; rcases hf' with h' | h' <;> simp [h'])
      | ok u =>
        cases c.run with
        | error e =>
          simp only []
          rw [World.mk.injEq]
          refine ⟨rfl, hlive, ?_⟩
          rw [List.append_assoc, List.append_assoc]
          exact filter_fresh_files w.files
            ([(w.nextDir, "a.cpp")] ++ ([(w.nextDir, "a.o")] ++ [(w.nextDir, "a")]))
            w.nextDir hf
            (by intro f hf'; simp at hf'; rcases hf' with h' | h' | h' <;> simp [h'])
        | ok out =>
          simp only []
          rw [World.mk.injEq]
          refine ⟨rfl, hlive, ?_⟩
          rw [List.append_assoc, List.append_assoc]
          exact filter_fresh_files w.files
            ([(w.nextDir, "a.cpp")] ++ ([(w.nextDir, "a.o")] ++ [(w.nextDir, "a")]))
            w.nextDir hf
            (by intro f hf'; simp at hf'; rcases hf' with h' | h' | h' <;> simp [h'])
  · unfold build_shlib withTempdir mkdtemp rmtree writeFile
    cases c.compile with
    | error e =>
      simp only []
      rw [World.mk.injEq]
      refine ⟨rfl, hlive, ?_⟩
      exact filter_fresh_files w.files [(w.nextDir, "a.cpp")] w.nextDir hf
        (by intro f hf'; simp at hf'; simp [hf'])
    | ok objs =>
      cases c.link with
      | error e =>
        simp only []
        rw [World.mk.injEq]
        refine ⟨rfl, hlive, ?_⟩
        rw [List.append_assoc]
        exact filter_fresh_files w.files ([(w.nextDir, "a.cpp")] ++ [(w.nextDir, "a.o")])
          w.nextDir hf (by intro f hf'; simp at hf'; rcases hf' with h' | h' <;> simp [h'])
      | ok u =>
        simp only []
        rw [World.mk.injEq]
        refine ⟨rfl, hlive, ?_⟩
        rw [List.append_assoc, List.append_assoc]
        exact filter_fresh_files w.files
          ([(w.nextDir, "a.cpp")] ++ ([(w.nextDir, "a.o")] ++ [(w.nextDir, "a")]))
          w.nextDir hf
          (by intro f hf'; simp at hf'; rcases hf' with h' | h' | h' <;> simp [h'])

/-- Witness for claim C7: a compiler whose probe binary runs successfully,
started on an empty well-formed world. -/
theorem workspace_lifecycle_witness :
    (⟨0, [], []⟩ : World).wf ∧
    (build_and_run ⟨.ok ["a.o"], .ok (), .ok "7600"⟩ "int main();" ⟨0, [], []⟩).2 =
      ⟨1, [], []⟩ ∧
    (build_shlib ⟨.ok ["a.o"], .ok (), .ok "7600"⟩ "int main();" ⟨0, [], []⟩).2 =
      ⟨1, [], []⟩ :=
  ⟨by decide,
   (workspace_lifecycle ⟨.ok ["a.o"], .ok (), .ok "7600"⟩ "int main();" ⟨0, [], []⟩
      (by decide)).1,
   (workspace_lifecycle ⟨.ok ["a.o"], .ok (), .ok "7600"⟩ "int main();" ⟨0, [], []⟩
      (by decide)).2⟩

end CupyBuild
